import Mathlib

/-!
Verification of the request-orchestration core of asyncprawcore
(src/asyncprawcore/sessions.py and src/asyncprawcore/requestor.py).

The Python code is shallowly embedded: pure fragments become Lean
functions, the per-attempt state (the Authorizer's cached token) is
threaded explicitly, and each HTTP attempt's outcome is drawn from a
`trace : Nat → TransportOutcome` (attempt `i` observes `trace i`).
A ghost `AttemptLog` records, per attempt, the value of the retry
counter, whether the backoff sleep ran, whether the token was
refreshed, and whether a 401 cleared the token; the log changes no
control flow.
-/

/-- A Python scalar value, as used for dict values in this code base
(`"json"`, `1`). -/
inductive Val where
  | vint (n : Int)
  | vstr (s : String)
deriving DecidableEq

/-- A Python dict of string keys, modelled as an association list whose
order is insertion order (as Python dicts guarantee). -/
abbrev PDict := List (String × Val)

/-- Python `k in d`. -/
def dictHasKey (k : String) : PDict → Bool
  | [] => false
  | p :: rest => p.1 == k || dictHasKey k rest

/-- Python `d[k] = v`: overwrite the value at an existing key in place,
else append the new pair at the end (insertion order). -/
def dictInsert (k : String) (v : Val) (d : PDict) : PDict :=
  if dictHasKey k d then d.map fun p => if p.1 = k then (k, v) else p
  else d ++ [(k, v)]

/-- Python `d.get(k)` / `d[k]`. -/
def dictLookup (k : String) : PDict → Option Val
  | [] => none
  | p :: rest => if p.1 = k then some p.2 else dictLookup k rest

/-- A transport response: HTTP status, the `content-length` header, and
the decoded JSON body (`none` when `.json()` would raise ValueError). -/
structure Response where
  status : Nat
  contentLength : Option String
  jsonBody : Option Val
deriving DecidableEq

/-- The cause wrapped by the uniform transport exception.  The first
three correspond to `ChunkedEncodingError`, `ConnectionError` and
`ReadTimeout` (requestor failures the session may retry); `otherCause`
stands for every other underlying exception. -/
inductive Cause where
  | chunkedEncodingError
  | connectionError
  | readTimeout
  | otherCause
deriving DecidableEq

/-- The uniform transport exception `RequestException(exc, args, kwargs)`
(exceptions.py, raised by requestor.py line 64): the original cause plus
the call's positional and keyword context. -/
structure RequestException where
  original_exception : Cause
  args : List String
  kwargs : PDict
deriving DecidableEq

/-- What the underlying `aiohttp` transport does on one attempt: produce
a response, or raise an exception with some cause. -/
inductive TransportOutcome where
  | ok (r : Response)
  | raised (c : Cause)
deriving DecidableEq

namespace Requestor

/-- requestor.py lines 58-64: issue the HTTP request, normalizing any
underlying exception into `RequestException` carrying the original
cause and the call's args/kwargs. -/
def request (outcome : TransportOutcome) (args : List String) (kwargs : PDict) :
    Except RequestException Response :=
  match outcome with
  | .ok r => .ok r
  | .raised exc => .error ⟨exc, args, kwargs⟩

end Requestor

/-- The error taxonomy of the status-derived exceptions raised by the
session (exceptions.py classes named in sessions.py lines 47-65).
`authorization_error_class` (util.py, 401/403) is the AuthError family. -/
inductive ErrorKind where
  | ServerError
  | BadRequest
  | Conflict
  | Redirect
  | AuthError
  | SpecialError
  | NotFound
  | TooLarge
  | UnavailableForLegalReasons
deriving DecidableEq

/-- Modelled from the spec: the Authorizer collaborator (auth.py is not
under src/).  Spec section 4.3: it exposes a validity check, an optional
refresh capability (presence of a `refresh` attribute), and token
invalidation. -/
structure Authorizer where
  hasRefresh : Bool
  tokenValid : Bool
deriving DecidableEq

/-- Modelled from the spec: `_clear_access_token` invalidates the cached
token (spec section 4.3, token invalidation). -/
def Authorizer.clear_access_token (a : Authorizer) : Authorizer :=
  { a with tokenValid := false }

/-- Modelled from the spec: `refresh` obtains a fresh valid token
(spec section 4.3). -/
def Authorizer.refresh (a : Authorizer) : Authorizer :=
  { a with tokenValid := true }

namespace Session

/-- sessions.py line 38: the transport causes the session may retry. -/
def RETRY_EXCEPTIONS (c : Cause) : Bool :=
  match c with
  | .chunkedEncodingError => true
  | .connectionError => true
  | .readTimeout => true
  | .otherCause => false

/-- sessions.py lines 39-46: `{520, 522, codes[bad_gateway]=502,
codes[gateway_timeout]=504, codes[internal_server_error]=500,
codes[service_unavailable]=503}`. -/
def RETRY_STATUSES (s : Nat) : Bool :=
  s == 520 || s == 522 || s == 502 || s == 504 || s == 500 || s == 503

/-- sessions.py lines 47-65, entries in source order; the named
`requests` codes are 502 bad_gateway, 400 bad_request, 409 conflict,
302 found, 403 forbidden, 504 gateway_timeout, 500
internal_server_error, 415 media_type, 404 not_found, 413
request_entity_too_large, 503 service_unavailable, 401 unauthorized,
451 unavailable_for_legal_reasons. -/
def STATUS_EXCEPTIONS (s : Nat) : Option ErrorKind :=
  if s = 502 then some .ServerError
  else if s = 400 then some .BadRequest
  else if s = 409 then some .Conflict
  else if s = 302 then some .Redirect
  else if s = 403 then some .AuthError
  else if s = 504 then some .ServerError
  else if s = 500 then some .ServerError
  else if s = 415 then some .SpecialError
  else if s = 404 then some .NotFound
  else if s = 413 then some .TooLarge
  else if s = 503 then some .ServerError
  else if s = 401 then some .AuthError
  else if s = 451 then some .UnavailableForLegalReasons
  else if s = 520 then some .ServerError
  else if s = 522 then some .ServerError
  else none

/-- sessions.py line 66: `{codes[created]=201, codes[ok]=200}`. -/
def SUCCESS_STATUSES (s : Nat) : Bool :=
  s == 201 || s == 200

/-- sessions.py lines 74-83: `_retry_sleep(retries)`.  The call to
`random.random()` is modelled by the draw `r` ranging over `[0,1)`.
Returns the duration slept, or `none` when no sleep happens. -/
def _retry_sleep (retries : Nat) (r : ℚ) : Option ℚ :=
  if retries < 3 then some ((if retries = 2 then 0 else 2) + 2 * r)
  else none

/-- Whether `_retry_sleep retries r` sleeps at all; by lines 76-83 this
is independent of the random draw. -/
def sleepHappens (retries : Nat) : Bool :=
  decide (retries < 3)

/-- sessions.py lines 207-214: `_set_header_callback`, which the rate
limiter invokes freshly on every attempt (spec section 4.4).  If the
token is invalid and the authorizer supports refresh, refresh it.
Returns the new authorizer state and whether refresh was invoked. -/
def _set_header_callback (a : Authorizer) : Authorizer × Bool :=
  if !a.tokenValid && a.hasRefresh then (a.refresh, true) else (a, false)

/-- Outcome of `_make_request` (sessions.py lines 135-160): either the
pair `(response, None)`, the pair `(None, exception.original_exception)`
with the exception swallowed, or the `RequestException` re-raised. -/
inductive MakeRequestResult where
  | got (r : Response)
  | swallowed (c : Cause)
  | raisedExc (e : RequestException)
deriving DecidableEq

/-- sessions.py lines 135-160: call the requestor (through the rate
limiter); on `RequestException`, re-raise unless more than one attempt
remains and the wrapped cause is in `RETRY_EXCEPTIONS`, in which case
swallow it and record the absent response. -/
def _make_request (retries : Nat) (args : List String) (kwargs : PDict)
    (outcome : TransportOutcome) : MakeRequestResult :=
  match Requestor.request outcome args kwargs with
  | .ok response => .got response
  | .error exception =>
    if retries ≤ 1 ∨ RETRY_EXCEPTIONS exception.original_exception = false then
      .raisedExc exception
    else
      .swallowed exception.original_exception

/-- The `response` variable of lines 167-170 as seen by the rest of the
attempt: present for `got`, absent (`None`) when the exception was
swallowed. -/
def toOptionResponse : MakeRequestResult → Option Response
  | .got r => some r
  | _ => none

/-- sessions.py lines 171-175: on a 401, clear the cached token and, if
the authorizer has a `refresh` attribute, set `do_retry`.  Returns the
updated authorizer and `do_retry`. -/
def handle401 (auth : Authorizer) (oresp : Option Response) : Authorizer × Bool :=
  match oresp with
  | some response =>
    if response.status = 401 then (auth.clear_access_token, auth.hasRefresh)
    else (auth, false)
  | none => (auth, false)

/-- The `response is None or response.status in self.RETRY_STATUSES`
disjunct of lines 179-180. -/
def retryStatusCheck : Option Response → Bool
  | none => true
  | some response => RETRY_STATUSES response.status

/-- sessions.py lines 177-181: the retry decision
`retries > 1 and (do_retry or response is None or
response.status in RETRY_STATUSES)`. -/
def retryDecision (retries : Nat) (do_retry : Bool) (oresp : Option Response) : Bool :=
  decide (1 < retries) && (do_retry || retryStatusCheck oresp)

/-- What one logical call produces: the caller-visible value or the
raised exception (sessions.py lines 193-205, plus the re-raised
transport exception of lines 155-159).  `noneStatusRead` marks the
impossible read of `response.status` on an absent response in the
terminal branch; `assertFailed` is the lines 197-199 AssertionError. -/
inductive CallResult where
  | decoded (v : Val)
  | emptyStr
  | noContent
  | raisedStatus (k : ErrorKind) (response : Response)
  | raisedBadJSON (response : Response)
  | raisedTransport (e : RequestException)
  | assertFailed (response : Response)
  | noneStatusRead
deriving DecidableEq

/-- Whether a call result is the absent-response status read marker. -/
def isNoneStatusRead : CallResult → Bool
  | .noneStatusRead => true
  | _ => false

/-- sessions.py lines 193-205: terminal resolution of an attempt that is
not retried.  Reading `response.status` of an absent response yields the
`noneStatusRead` marker. -/
def terminalResolve : Option Response → CallResult
  | none => .noneStatusRead
  | some response =>
    match STATUS_EXCEPTIONS response.status with
    | some k => .raisedStatus k response
    | none =>
      if response.status = 204 then .noContent
      else if SUCCESS_STATUSES response.status then
        if response.contentLength = some "0" then .emptyStr
        else
          match response.jsonBody with
          | some v => .decoded v
          | none => .raisedBadJSON response
      else .assertFailed response

/-- Ghost record of one attempt: the retry counter on entry, whether the
backoff sleep ran before it, whether the header callback refreshed the
token, and whether a 401 response cleared the token. -/
structure AttemptLog where
  retriesVal : Nat
  slept : Bool
  refreshed : Bool
  cleared : Bool
deriving DecidableEq

/-- Default log entry, used only as the `List.getD` fallback. -/
def defaultEntry : AttemptLog := ⟨0, false, false, false⟩

/-- Result of a whole logical call: the caller-visible outcome, the
ghost per-attempt log, and the final authorizer state. -/
structure RunResult where
  result : CallResult
  log : List AttemptLog
  auth : Authorizer
deriving DecidableEq

/-- One attempt either resolves terminally or requests a retry. -/
inductive StepOut where
  | terminal (res : CallResult) (entry : AttemptLog) (auth : Authorizer)
  | retry (entry : AttemptLog) (auth : Authorizer)
deriving DecidableEq

/-- Whether an attempt observed a 401 (for the ghost `cleared` flag). -/
def is401 : Option Response → Bool
  | some response => response.status == 401
  | none => false

/-- One attempt of `_request_with_retries` (sessions.py lines 162-205),
everything except the recursion of `_do_retry`: backoff sleep, fresh
auth header (refreshing if needed), the transport call, 401 handling,
and the retry decision; if no retry, terminal resolution. -/
def attemptStep (trace : Nat → TransportOutcome) (args : List String) (kwargs : PDict)
    (idx : Nat) (auth : Authorizer) (retries : Nat) : StepOut :=
  let slept := sleepHappens retries
  let hdr := _set_header_callback auth
  match _make_request retries args kwargs (trace idx) with
  | .raisedExc e => .terminal (.raisedTransport e) ⟨retries, slept, hdr.2, false⟩ hdr.1
  | mk =>
    let oresp := toOptionResponse mk
    let h401 := handle401 hdr.1 oresp
    let entry : AttemptLog := ⟨retries, slept, hdr.2, is401 oresp⟩
    if retryDecision retries h401.2 oresp then .retry entry h401.1
    else .terminal (terminalResolve oresp) entry h401.1

/-- sessions.py lines 162-205 together with `_do_retry` (lines 106-133):
run one attempt; on a retry decision, recurse with `retries - 1`. -/
def _request_with_retries (trace : Nat → TransportOutcome) (args : List String)
    (kwargs : PDict) (idx : Nat) (auth : Authorizer) (retries : Nat) : RunResult :=
  match h : attemptStep trace args kwargs idx auth retries with
  | .terminal res entry auth2 => ⟨res, [entry], auth2⟩
  | .retry entry auth2 =>
    let rest := _request_with_retries trace args kwargs (idx + 1) auth2 (retries - 1)
    ⟨rest.result, entry :: rest.log, rest.auth⟩
termination_by retries
decreasing_by
  have h1 : 1 < retries := by
    unfold attemptStep at h
    split at h
    · simp at h
    · dsimp only at h
      split at h
      · rename_i hcond
        simp only [retryDecision, Bool.and_eq_true, decide_eq_true_eq] at hcond
        exact hcond.1
      · simp at h
  omega

/-- A whole logical call as `Session.request` launches it (sessions.py
line 251), with the given retry budget; the source default is 3. -/
def runCall (auth : Authorizer) (trace : Nat → TransportOutcome) (retries : Nat) : RunResult :=
  _request_with_retries trace [] [] 0 auth retries

/-- Key comparison on dict items; Python's `sorted(data.items())`
compares keys first, and dict keys are unique, so values never decide
the order. -/
def keyLE (a b : String × Val) : Prop := a.1 ≤ b.1

instance : DecidableRel keyLE := fun a b => decidable_of_iff (a.1 ≤ b.1) Iff.rfl

instance : IsTotal (String × Val) keyLE := ⟨fun a b => le_total a.1 b.1⟩

instance : IsTrans (String × Val) keyLE := ⟨fun _ _ _ h1 h2 => le_trans h1 h2⟩

/-- sessions.py lines 246-249 (inside `Session.request`): when the body
is a dict, deep-copy it, inject `api_type=json`, and replace it by the
key-sorted item list.  Returns (transmitted body, caller's mapping after
the call); the deep copy means the caller's dict is left untouched. -/
def prepare_data (data : PDict) : PDict × PDict :=
  (List.insertionSort keyLE (dictInsert "api_type" (Val.vstr "json") data), data)

/-- sessions.py lines 244-245 (inside `Session.request`):
`params = deepcopy(params) or {}` then `params[raw_json] = 1`.  Returns
(transmitted params, caller's params after the call); the deep copy
means the caller's object is left untouched. -/
def prepare_params (params : Option PDict) : PDict × Option PDict :=
  (dictInsert "raw_json" (Val.vint 1) (params.getD []), params)

/-- The status-to-error table exactly as the spec's section 6 table and
section 4.1 state it (refinement reference for claim C3); defined from
the spec's words, to be compared against `STATUS_EXCEPTIONS`. -/
def STATUS_EXCEPTIONS_spec (s : Nat) : Option ErrorKind :=
  if s = 302 then some .Redirect
  else if s = 400 then some .BadRequest
  else if s = 401 ∨ s = 403 then some .AuthError
  else if s = 404 then some .NotFound
  else if s = 409 then some .Conflict
  else if s = 413 then some .TooLarge
  else if s = 415 then some .SpecialError
  else if s = 451 then some .UnavailableForLegalReasons
  else if s = 500 ∨ s = 502 ∨ s = 503 ∨ s = 504 ∨ s = 520 ∨ s = 522 then some .ServerError
  else none

/-- A 503 Service Unavailable response. -/
def resp503 : Response := ⟨503, some "0", none⟩

/-- A 200 response with a decodable JSON body. -/
def respOK : Response := ⟨200, some "42", some (Val.vstr "ok")⟩

/-- A 401 Unauthorized response. -/
def resp401 : Response := ⟨401, some "0", none⟩

/-- An authorizer without a `refresh` attribute, holding a valid token. -/
def authNoRefresh : Authorizer := ⟨false, true⟩

/-- A refresh-capable authorizer holding a valid token. -/
def authRefresh : Authorizer := ⟨true, true⟩

/-- Response sequence [503, 503, 200, 200, ...]. -/
def trace503ok : Nat → TransportOutcome := fun i => if i < 2 then .ok resp503 else .ok respOK

/-- Response sequence [503, 503, 503, ...]. -/
def trace503all : Nat → TransportOutcome := fun _ => .ok resp503

/-- Response sequence [401, 200, 200, ...]. -/
def trace401ok : Nat → TransportOutcome := fun i => if i = 0 then .ok resp401 else .ok respOK

/-- Response sequence [401, 401, ...]. -/
def trace401all : Nat → TransportOutcome := fun _ => .ok resp401

/-- A connection error on the first attempt, then 200s. -/
def traceConnErr : Nat → TransportOutcome :=
  fun i => if i = 0 then .raised .connectionError else .ok respOK

/-- A non-retryable transport failure on every attempt. -/
def traceOther : Nat → TransportOutcome := fun _ => .raised .otherCause

end Session

open Session

theorem dictLookup_dictInsert (k : String) (v : Val) (d : PDict) :
    dictLookup k (dictInsert k v d) = some v := by
  induction d with
  | nil => simp [dictInsert, dictHasKey, dictLookup]
  | cons p rest ih =>
    by_cases hp : p.1 = k
    · have hk : dictHasKey k (p :: rest) = true := by simp [dictHasKey, hp]
      simp [dictInsert, hk, dictLookup, hp]
    · by_cases hr : dictHasKey k rest = true
      · have hk : dictHasKey k (p :: rest) = true := by simp [dictHasKey, hr]
        have hrw : dictInsert k v rest
            = rest.map fun p => if p.1 = k then (k, v) else p := by
          rw [dictInsert, if_pos hr]
        simp only [dictInsert, hk, if_pos, List.map_cons, if_neg hp]
        simp only [dictLookup, if_neg hp]
        rw [← hrw]
        exact ih
      · have hk : dictHasKey k (p :: rest) = false := by
          simp [dictHasKey, hp, hr]
        have hrw : dictInsert k v rest = rest ++ [(k, v)] := by
          rw [dictInsert, if_neg (by simp [hr])]
        simp only [dictInsert, hk, Bool.false_eq_true, if_false, List.cons_append]
        simp only [dictLookup, if_neg hp]
        rw [← hrw]
        exact ih

theorem mem_of_dictLookup {k : String} {v : Val} :
    ∀ {l : PDict}, dictLookup k l = some v → (k, v) ∈ l := by
  intro l
  induction l with
  | nil => intro h; simp [dictLookup] at h
  | cons p rest ih =>
    intro h
    by_cases hp : p.1 = k
    · simp only [dictLookup, if_pos hp, Option.some.injEq] at h
      have hpe : (k, v) = p := by
        cases p with
        | mk a b => simp_all
      rw [hpe]
      exact List.mem_cons_self _ _
    · simp only [dictLookup, if_neg hp] at h
      exact List.mem_cons_of_mem _ (ih h)

theorem _make_request_swallowed_lt {retries : Nat} {args : List String} {kwargs : PDict}
    {outcome : TransportOutcome} {c : Cause}
    (h : _make_request retries args kwargs outcome = .swallowed c) : 1 < retries := by
  unfold _make_request at h
  cases outcome with
  | ok r => simp [Requestor.request] at h
  | raised exc =>
    simp only [Requestor.request] at h
    split at h
    · simp at h
    · rename_i hcond
      omega

theorem attemptStep_retry_lt {trace : Nat → TransportOutcome} {args : List String}
    {kwargs : PDict} {idx : Nat} {auth : Authorizer} {retries : Nat}
    {entry : AttemptLog} {auth2 : Authorizer}
    (h : attemptStep trace args kwargs idx auth retries = .retry entry auth2) :
    1 < retries := by
  unfold attemptStep at h
  split at h
  · simp at h
  · dsimp only at h
    split at h
    · rename_i hcond
      simp only [retryDecision, Bool.and_eq_true, decide_eq_true_eq] at hcond
      exact hcond.1
    · simp at h

theorem attemptStep_retry_retriesVal {trace : Nat → TransportOutcome} {args : List String}
    {kwargs : PDict} {idx : Nat} {auth : Authorizer} {retries : Nat}
    {entry : AttemptLog} {auth2 : Authorizer}
    (h : attemptStep trace args kwargs idx auth retries = .retry entry auth2) :
    entry.retriesVal = retries := by
  unfold attemptStep at h
  split at h
  · simp at h
  · dsimp only at h
    split at h
    · injection h with h1 h2
      rw [← h1]
    · simp at h

theorem attemptStep_terminal_retriesVal {trace : Nat → TransportOutcome} {args : List String}
    {kwargs : PDict} {idx : Nat} {auth : Authorizer} {retries : Nat}
    {res : CallResult} {entry : AttemptLog} {auth2 : Authorizer}
    (h : attemptStep trace args kwargs idx auth retries = .terminal res entry auth2) :
    entry.retriesVal = retries := by
  unfold attemptStep at h
  split at h
  · injection h with h1 h2 h3
    rw [← h2]
  · dsimp only at h
    split at h
    · simp at h
    · injection h with h1 h2 h3
      rw [← h2]

theorem terminalResolve_some_ne (r : Response) :
    isNoneStatusRead (terminalResolve (some r)) = false := by
  unfold terminalResolve
  dsimp only
  cases hse : STATUS_EXCEPTIONS r.status with
  | some k => simp [isNoneStatusRead]
  | none =>
    dsimp only
    split_ifs <;> cases r.jsonBody <;> simp [isNoneStatusRead]

theorem attemptStep_terminal_result_ne {trace : Nat → TransportOutcome} {args : List String}
    {kwargs : PDict} {idx : Nat} {auth : Authorizer} {retries : Nat}
    {res : CallResult} {entry : AttemptLog} {auth2 : Authorizer}
    (h : attemptStep trace args kwargs idx auth retries = .terminal res entry auth2) :
    isNoneStatusRead res = false := by
  unfold attemptStep at h
  split at h
  · injection h with h1 h2 h3
    rw [← h1]
    simp [isNoneStatusRead]
  · rename_i x hne
    dsimp only at h
    split at h
    · simp at h
    · rename_i hcond
      injection h with h1 h2 h3
      rw [← h1]
      cases hmk : _make_request retries args kwargs (trace idx) with
      | got r =>
        simp only [toOptionResponse]
        exact terminalResolve_some_ne r
      | raisedExc e => exact absurd hmk (fun hh => hne e hh)
      | swallowed c =>
        exfalso
        have hlt := _make_request_swallowed_lt hmk
        rw [hmk] at hcond
        simp [retryDecision, retryStatusCheck, toOptionResponse, hlt] at hcond

theorem runCall_503ok_eval : runCall authNoRefresh trace503ok 3 =
    ⟨.decoded (Val.vstr "ok"),
      [⟨3, false, false, false⟩, ⟨2, true, false, false⟩, ⟨1, true, false, false⟩],
      authNoRefresh⟩ := by
  simp [runCall, _request_with_retries, attemptStep, _set_header_callback, _make_request,
    Requestor.request, toOptionResponse, handle401, retryDecision, retryStatusCheck,
    RETRY_STATUSES, STATUS_EXCEPTIONS, SUCCESS_STATUSES, terminalResolve, sleepHappens,
    RETRY_EXCEPTIONS, trace503ok, resp503, respOK, authNoRefresh, is401]

theorem runCall_503all_eval : runCall authNoRefresh trace503all 3 =
    ⟨.raisedStatus .ServerError resp503,
      [⟨3, false, false, false⟩, ⟨2, true, false, false⟩, ⟨1, true, false, false⟩],
      authNoRefresh⟩ := by
  simp [runCall, _request_with_retries, attemptStep, _set_header_callback, _make_request,
    Requestor.request, toOptionResponse, handle401, retryDecision, retryStatusCheck,
    RETRY_STATUSES, STATUS_EXCEPTIONS, SUCCESS_STATUSES, terminalResolve, sleepHappens,
    RETRY_EXCEPTIONS, trace503all, resp503, authNoRefresh, is401]

theorem runCall_401ok_eval : runCall authRefresh trace401ok 3 =
    ⟨.decoded (Val.vstr "ok"),
      [⟨3, false, false, true⟩, ⟨2, true, true, false⟩],
      ⟨true, true⟩⟩ := by
  simp [runCall, _request_with_retries, attemptStep, _set_header_callback, _make_request,
    Requestor.request, toOptionResponse, handle401, retryDecision, retryStatusCheck,
    RETRY_STATUSES, STATUS_EXCEPTIONS, SUCCESS_STATUSES, terminalResolve, sleepHappens,
    RETRY_EXCEPTIONS, trace401ok, resp401, respOK, authRefresh, is401,
    Authorizer.clear_access_token, Authorizer.refresh]

theorem runCall_401all_eval : runCall authNoRefresh trace401all 3 =
    ⟨.raisedStatus .AuthError resp401, [⟨3, false, false, true⟩], ⟨false, false⟩⟩ := by
  simp [runCall, _request_with_retries, attemptStep, _set_header_callback, _make_request,
    Requestor.request, toOptionResponse, handle401, retryDecision, retryStatusCheck,
    RETRY_STATUSES, STATUS_EXCEPTIONS, SUCCESS_STATUSES, terminalResolve, sleepHappens,
    RETRY_EXCEPTIONS, trace401all, resp401, authNoRefresh, is401,
    Authorizer.clear_access_token]

theorem runCall_connErr_eval : runCall authNoRefresh traceConnErr 3 =
    ⟨.decoded (Val.vstr "ok"),
      [⟨3, false, false, false⟩, ⟨2, true, false, false⟩],
      authNoRefresh⟩ := by
  simp [runCall, _request_with_retries, attemptStep, _set_header_callback, _make_request,
    Requestor.request, toOptionResponse, handle401, retryDecision, retryStatusCheck,
    RETRY_STATUSES, STATUS_EXCEPTIONS, SUCCESS_STATUSES, terminalResolve, sleepHappens,
    RETRY_EXCEPTIONS, traceConnErr, respOK, authNoRefresh, is401]

theorem runCall_other_eval : runCall authNoRefresh traceOther 3 =
    ⟨.raisedTransport ⟨.otherCause, [], []⟩, [⟨3, false, false, false⟩], authNoRefresh⟩ := by
  simp [runCall, _request_with_retries, attemptStep, _set_header_callback, _make_request,
    Requestor.request, toOptionResponse, handle401, retryDecision, retryStatusCheck,
    RETRY_EXCEPTIONS, traceOther, authNoRefresh, is401, sleepHappens]

theorem runCall_connErr_budget1_eval : runCall authNoRefresh traceConnErr 1 =
    ⟨.raisedTransport ⟨.connectionError, [], []⟩, [⟨1, true, false, false⟩], authNoRefresh⟩ := by
  simp [runCall, _request_with_retries, attemptStep, _set_header_callback, _make_request,
    Requestor.request, toOptionResponse, handle401, retryDecision, retryStatusCheck,
    RETRY_EXCEPTIONS, traceConnErr, authNoRefresh, is401, sleepHappens]

/-- Claim C1: a retry is performed iff attempts-remaining exceeds 1 and
(a forced retry on 401 was set, or a transport failure occurred (absent
response), or the status is in {500, 502, 503, 504, 520, 522}); the
response sequence [503, 503, 200] with budget 3 performs exactly 2
retries (3 logged attempts) and then succeeds, and [503, 503, 503] with
budget 3 fails with ServerError after the 3rd attempt with no further
retry. -/
theorem C1_retry_policy :
    (∀ s : Nat, RETRY_STATUSES s = true ↔
      (s = 500 ∨ s = 502 ∨ s = 503 ∨ s = 504 ∨ s = 520 ∨ s = 522)) ∧
    (∀ (retries : Nat) (do_retry : Bool) (oresp : Option Response),
      retryDecision retries do_retry oresp = true ↔
        (1 < retries ∧ (do_retry = true ∨ oresp = none ∨
          ∃ r, oresp = some r ∧ RETRY_STATUSES r.status = true))) ∧
    runCall authNoRefresh trace503ok 3 =
      ⟨.decoded (Val.vstr "ok"),
        [⟨3, false, false, false⟩, ⟨2, true, false, false⟩, ⟨1, true, false, false⟩],
        authNoRefresh⟩ ∧
    runCall authNoRefresh trace503all 3 =
      ⟨.raisedStatus .ServerError resp503,
        [⟨3, false, false, false⟩, ⟨2, true, false, false⟩, ⟨1, true, false, false⟩],
        authNoRefresh⟩ := by
  refine ⟨?_, ?_, runCall_503ok_eval, runCall_503all_eval⟩
  · intro s
    simp only [RETRY_STATUSES, Bool.or_eq_true, beq_iff_eq]
    tauto
  · intro retries dr oresp
    cases oresp with
    | none => simp [retryDecision, retryStatusCheck]
    | some r =>
      simp only [retryDecision, retryStatusCheck, Bool.and_eq_true, decide_eq_true_eq,
        Bool.or_eq_true, Option.some.injEq, reduceCtorEq, false_or]
      constructor
      · rintro ⟨h1, h2 | h2⟩
        · exact ⟨h1, Or.inl h2⟩
        · exact ⟨h1, Or.inr ⟨r, rfl, h2⟩⟩
      · rintro ⟨h1, h2 | ⟨r2, hr2, h3⟩⟩
        · exact ⟨h1, Or.inl h2⟩
        · cases hr2
          exact ⟨h1, Or.inr h3⟩

/-- Claim C2: every 401 response clears the cached token, and the forced
retry flag equals the authorizer's refresh capability; the sequence
[401, 200] with a refresh-capable authorizer clears the token, refreshes
exactly once (on the 2nd attempt) and succeeds without surfacing an
error; a single 401 with a refresh-incapable authorizer fails with the
AuthError kind on the first attempt with no retry. -/
theorem C2_unauthorized_handling :
    (∀ (auth : Authorizer) (r : Response), r.status = 401 →
      (handle401 auth (some r)).1.tokenValid = false ∧
      (handle401 auth (some r)).2 = auth.hasRefresh) ∧
    runCall authRefresh trace401ok 3 =
      ⟨.decoded (Val.vstr "ok"),
        [⟨3, false, false, true⟩, ⟨2, true, true, false⟩], ⟨true, true⟩⟩ ∧
    ((runCall authRefresh trace401ok 3).log.countP fun e => e.refreshed) = 1 ∧
    runCall authNoRefresh trace401all 3 =
      ⟨.raisedStatus .AuthError resp401, [⟨3, false, false, true⟩], ⟨false, false⟩⟩ := by
  refine ⟨?_, runCall_401ok_eval, ?_, runCall_401all_eval⟩
  · intro auth r h
    simp [handle401, h, Authorizer.clear_access_token]
  · rw [runCall_401ok_eval]
    rfl

/-- Witness for C2: the 401 response with the refresh-capable authorizer
satisfies the hypothesis and the conclusion holds there. -/
theorem C2_unauthorized_handling_witness :
    resp401.status = 401 ∧
    (handle401 authRefresh (some resp401)).1.tokenValid = false ∧
    (handle401 authRefresh (some resp401)).2 = authRefresh.hasRefresh :=
  ⟨rfl, C2_unauthorized_handling.1 authRefresh resp401 rfl⟩

/-- Claim C3: the status-to-error table of the code agrees pointwise
with the spec's table (302 Redirect, 400 BadRequest, 401/403 AuthError,
404 NotFound, 409 Conflict, 413 TooLarge, 415 SpecialError, 451
UnavailableForLegalReasons, 500/502/503/504/520/522 ServerError), the
success statuses are exactly {200, 201}, and every status-derived error
raised at terminal resolution carries the raw response. -/
theorem C3_status_table :
    (∀ s : Nat, STATUS_EXCEPTIONS s = STATUS_EXCEPTIONS_spec s) ∧
    (∀ s : Nat, SUCCESS_STATUSES s = true ↔ (s = 200 ∨ s = 201)) ∧
    (∀ (r : Response) (k : ErrorKind), STATUS_EXCEPTIONS r.status = some k →
      terminalResolve (some r) = .raisedStatus k r) := by
  refine ⟨?_, ?_, ?_⟩
  · intro s
    by_cases h302 : s = 302
    · subst h302; decide
    by_cases h400 : s = 400
    · subst h400; decide
    by_cases h401 : s = 401
    · subst h401; decide
    by_cases h403 : s = 403
    · subst h403; decide
    by_cases h404 : s = 404
    · subst h404; decide
    by_cases h409 : s = 409
    · subst h409; decide
    by_cases h413 : s = 413
    · subst h413; decide
    by_cases h415 : s = 415
    · subst h415; decide
    by_cases h451 : s = 451
    · subst h451; decide
    by_cases h500 : s = 500
    · subst h500; decide
    by_cases h502 : s = 502
    · subst h502; decide
    by_cases h503 : s = 503
    · subst h503; decide
    by_cases h504 : s = 504
    · subst h504; decide
    by_cases h520 : s = 520
    · subst h520; decide
    by_cases h522 : s = 522
    · subst h522; decide
    simp [STATUS_EXCEPTIONS, STATUS_EXCEPTIONS_spec, h302, h400, h401, h403, h404,
      h409, h413, h415, h451, h500, h502, h503, h504, h520, h522]
  · intro s
    simp only [SUCCESS_STATUSES, Bool.or_eq_true, beq_iff_eq]
    tauto
  · intro r k h
    unfold terminalResolve
    dsimp only
    rw [h]

/-- Witness for C3: 503 is in the table with kind ServerError, and the
resolved error carries the response. -/
theorem C3_status_table_witness :
    STATUS_EXCEPTIONS resp503.status = some .ServerError ∧
    terminalResolve (some resp503) = .raisedStatus .ServerError resp503 :=
  ⟨by decide, C3_status_table.2.2 resp503 .ServerError (by decide)⟩

/-- Claim C4: terminal (non-retried) resolution maps a tabled status to
its error kind carrying the raw response, 204 to the no-content marker,
a success status with content-length "0" to the empty result, a success
status with a decodable body to the decoded value, and a success status
with an undecodable body to BadJSON carrying the raw response. -/
theorem C4_terminal_classification (r : Response) :
    (∀ k : ErrorKind, STATUS_EXCEPTIONS r.status = some k →
      terminalResolve (some r) = .raisedStatus k r) ∧
    (r.status = 204 → terminalResolve (some r) = .noContent) ∧
    (SUCCESS_STATUSES r.status = true → r.contentLength = some "0" →
      terminalResolve (some r) = .emptyStr) ∧
    (∀ v : Val, SUCCESS_STATUSES r.status = true → r.contentLength ≠ some "0" →
      r.jsonBody = some v → terminalResolve (some r) = .decoded v) ∧
    (SUCCESS_STATUSES r.status = true → r.contentLength ≠ some "0" →
      r.jsonBody = none → terminalResolve (some r) = .raisedBadJSON r) := by
  refine ⟨?_, ?_, ?_, ?_, ?_⟩
  · intro k h
    unfold terminalResolve
    dsimp only
    rw [h]
  · intro h
    simp [terminalResolve, STATUS_EXCEPTIONS, h]
  · intro hs hcl
    have h2 : r.status = 201 ∨ r.status = 200 := by
      simpa [SUCCESS_STATUSES] using hs
    rcases h2 with h2 | h2 <;>
      simp [terminalResolve, STATUS_EXCEPTIONS, SUCCESS_STATUSES, h2, hcl]
  · intro v hs hcl hj
    have h2 : r.status = 201 ∨ r.status = 200 := by
      simpa [SUCCESS_STATUSES] using hs
    rcases h2 with h2 | h2 <;>
      simp [terminalResolve, STATUS_EXCEPTIONS, SUCCESS_STATUSES, h2, hcl, hj]
  · intro hs hcl hj
    have h2 : r.status = 201 ∨ r.status = 200 := by
      simpa [SUCCESS_STATUSES] using hs
    rcases h2 with h2 | h2 <;>
      simp [terminalResolve, STATUS_EXCEPTIONS, SUCCESS_STATUSES, h2, hcl, hj]

/-- Witness for C4: the 200 response with body "ok" and content-length
"42" satisfies the success hypotheses and decodes. -/
theorem C4_terminal_classification_witness :
    SUCCESS_STATUSES respOK.status = true ∧
    respOK.contentLength ≠ some "0" ∧
    respOK.jsonBody = some (Val.vstr "ok") ∧
    terminalResolve (some respOK) = .decoded (Val.vstr "ok") :=
  ⟨by decide, by decide, rfl,
    (C4_terminal_classification respOK).2.2.2.1 (Val.vstr "ok") (by decide) (by decide) rfl⟩

/-- Counterexample to claim C5 as stated: the claim asserts that on the
final attempt (1 attempt remaining) there is no sleep, but `_retry_sleep`
at `retries = 1` with the valid random draw 1/2 sleeps for 3 seconds
(the code sleeps `2 + 2*random()` there). -/
theorem C5_backoff_counterexample :
    (0 : ℚ) ≤ 1 / 2 ∧ (1 / 2 : ℚ) < 1 ∧
    _retry_sleep 1 (1 / 2) = some 3 ∧
    (_retry_sleep 1 (1 / 2)).isSome = true := by
  refine ⟨by norm_num, by norm_num, ?_, ?_⟩ <;> norm_num [_retry_sleep]

/-- Claim C5 (amended): backoff sleep happens before issuing an attempt
as the penalty for the previous failure; with 2 attempts remaining the
duration is `0 + 2*random()`, lying in [0,2); with 1 attempt remaining
(the final attempt) it is `2 + 2*random()`, lying in [2,4); when 3 or
more attempts remain (the first attempt at the default budget) there is
no sleep; and after a transport connection-error on the first attempt
with budget 3, a backoff sleep occurs before the 2nd attempt. -/
theorem C5_backoff_amended (r : ℚ) (h0 : 0 ≤ r) (h1 : r < 1) :
    (∃ s, _retry_sleep 2 r = some s ∧ 0 ≤ s ∧ s < 2) ∧
    (∃ s, _retry_sleep 1 r = some s ∧ 2 ≤ s ∧ s < 4) ∧
    (∀ n, 3 ≤ n → _retry_sleep n r = none) ∧
    (∀ n, (_retry_sleep n r).isSome = sleepHappens n) ∧
    runCall authNoRefresh traceConnErr 3 =
      ⟨.decoded (Val.vstr "ok"),
        [⟨3, false, false, false⟩, ⟨2, true, false, false⟩],
        authNoRefresh⟩ := by
  refine ⟨?_, ?_, ?_, ?_, runCall_connErr_eval⟩
  · refine ⟨2 * r, by norm_num [_retry_sleep], by linarith, by linarith⟩
  · refine ⟨2 + 2 * r, by norm_num [_retry_sleep], by linarith, by linarith⟩
  · intro n hn
    rw [_retry_sleep, if_neg (by omega)]
  · intro n
    by_cases h : n < 3 <;> simp [_retry_sleep, sleepHappens, h]

/-- Witness for C5 (amended) at the random draw 1/2. -/
theorem C5_backoff_amended_witness :
    ((0 : ℚ) ≤ 1 / 2 ∧ (1 / 2 : ℚ) < 1) ∧
    (∃ s, _retry_sleep 2 (1 / 2) = some s ∧ 0 ≤ s ∧ s < 2) :=
  ⟨⟨by norm_num, by norm_num⟩,
    (C5_backoff_amended (1 / 2) (by norm_num) (by norm_num)).1⟩

/-- Claim C6: every underlying transport failure is normalized into the
single uniform `RequestException` carrying the original cause and the
call's positional/keyword context; the session swallows it (leading to a
retry, since an absent response always passes the retry check) exactly
when more than one attempt remains and the cause is a chunked-encoding
error, connection error or read-timeout, and re-raises it immediately
for any other cause or on the last attempt. -/
theorem C6_transport_normalization :
    (∀ (c : Cause) (args : List String) (kwargs : PDict),
      Requestor.request (.raised c) args kwargs = .error ⟨c, args, kwargs⟩) ∧
    (∀ c : Cause,
      RETRY_EXCEPTIONS c = true ↔
        (c = .chunkedEncodingError ∨ c = .connectionError ∨ c = .readTimeout)) ∧
    (∀ (retries : Nat) (args : List String) (kwargs : PDict) (c : Cause),
      1 < retries → RETRY_EXCEPTIONS c = true →
        _make_request retries args kwargs (.raised c) = .swallowed c) ∧
    (∀ (retries : Nat) (args : List String) (kwargs : PDict) (c : Cause),
      retries ≤ 1 ∨ RETRY_EXCEPTIONS c = false →
        _make_request retries args kwargs (.raised c) = .raisedExc ⟨c, args, kwargs⟩) ∧
    (∀ (retries : Nat) (do_retry : Bool),
      retryDecision retries do_retry none = decide (1 < retries)) ∧
    runCall authNoRefresh traceOther 3 =
      ⟨.raisedTransport ⟨.otherCause, [], []⟩, [⟨3, false, false, false⟩], authNoRefresh⟩ ∧
    runCall authNoRefresh traceConnErr 1 =
      ⟨.raisedTransport ⟨.connectionError, [], []⟩, [⟨1, true, false, false⟩],
        authNoRefresh⟩ := by
  refine ⟨fun c args kwargs => rfl, ?_, ?_, ?_, ?_,
    runCall_other_eval, runCall_connErr_budget1_eval⟩
  · intro c
    cases c <;> simp [RETRY_EXCEPTIONS]
  · intro retries args kwargs c hlt hc
    rw [_make_request]
    dsimp only [Requestor.request]
    rw [if_neg (by simp [hc]; omega)]
  · intro retries args kwargs c hor
    rw [_make_request]
    dsimp only [Requestor.request]
    rw [if_pos hor]
  · intro retries dr
    simp [retryDecision, retryStatusCheck]

/-- Witness for C6: a connection error with two attempts remaining is
swallowed; with one attempt remaining it is re-raised. -/
theorem C6_transport_normalization_witness :
    (1 < 2 ∧ RETRY_EXCEPTIONS .connectionError = true ∧
      _make_request 2 [] [] (.raised .connectionError) = .swallowed .connectionError) ∧
    ((1 ≤ 1 ∨ RETRY_EXCEPTIONS .connectionError = false) ∧
      _make_request 1 [] [] (.raised .connectionError) =
        .raisedExc ⟨.connectionError, [], []⟩) :=
  ⟨⟨by decide, by decide,
      C6_transport_normalization.2.2.1 2 [] [] .connectionError (by decide) (by decide)⟩,
    ⟨Or.inl (by decide),
      C6_transport_normalization.2.2.2.1 1 [] [] .connectionError (Or.inl (by decide))⟩⟩

/-- Claim C7: for any mapping-valued body, the transmitted body is a
key-sorted sequence of (key, value) pairs, a permutation of the caller's
mapping with the api_type=json field injected, that pair occurs in it,
and the caller's original mapping is unmodified after the call. -/
theorem C7_body_canonicalization (d : PDict) :
    List.Sorted keyLE (prepare_data d).1 ∧
    ("api_type", Val.vstr "json") ∈ (prepare_data d).1 ∧
    (prepare_data d).1.Perm (dictInsert "api_type" (Val.vstr "json") d) ∧
    (prepare_data d).2 = d := by
  refine ⟨?_, ?_, ?_, rfl⟩
  · exact List.sorted_insertionSort keyLE _
  · exact (List.perm_insertionSort keyLE _).mem_iff.2
      (mem_of_dictLookup (dictLookup_dictInsert "api_type" (Val.vstr "json") d))
  · exact List.perm_insertionSort keyLE _

/-- Claim C8: for every params input (including none) the transmitted
query parameters map raw_json to 1, overwriting any caller-supplied
value for that key, and the caller's own params object is unmodified
after the call. -/
theorem C8_params_marker (p : Option PDict) :
    dictLookup "raw_json" (prepare_params p).1 = some (Val.vint 1) ∧
    (prepare_params p).2 = p :=
  ⟨dictLookup_dictInsert "raw_json" (Val.vint 1) (p.getD []), rfl⟩

theorem run_of_terminal {trace : Nat → TransportOutcome} {args : List String}
    {kwargs : PDict} {idx : Nat} {auth : Authorizer} {retries : Nat}
    {res : CallResult} {entry : AttemptLog} {auth2 : Authorizer}
    (h : attemptStep trace args kwargs idx auth retries = .terminal res entry auth2) :
    _request_with_retries trace args kwargs idx auth retries = ⟨res, [entry], auth2⟩ := by
  unfold _request_with_retries
  rw [h]

theorem run_of_retry {trace : Nat → TransportOutcome} {args : List String}
    {kwargs : PDict} {idx : Nat} {auth : Authorizer} {retries : Nat}
    {entry : AttemptLog} {auth2 : Authorizer}
    (h : attemptStep trace args kwargs idx auth retries = .retry entry auth2) :
    _request_with_retries trace args kwargs idx auth retries =
      ⟨(_request_with_retries trace args kwargs (idx + 1) auth2 (retries - 1)).result,
        entry :: (_request_with_retries trace args kwargs (idx + 1) auth2 (retries - 1)).log,
        (_request_with_retries trace args kwargs (idx + 1) auth2 (retries - 1)).auth⟩ := by
  conv_lhs => unfold _request_with_retries
  rw [h]

/-- Claim C9: for every logical call with retry budget n, each attempt's
counter is exactly n minus the number of preceding attempts (so it
strictly decreases by 1 per retry and, in particular, never goes
negative), a retry is only taken while the counter exceeds 1 (every
non-final attempt has counter above 1), and for n at least 1 at most n
attempts are ever made, so the recursion terminates. -/
theorem C9_retry_counter (trace : Nat → TransportOutcome) (args : List String)
    (kwargs : PDict) (idx : Nat) (auth : Authorizer) (n : Nat) :
    0 < (_request_with_retries trace args kwargs idx auth n).log.length ∧
    (∀ i, i < (_request_with_retries trace args kwargs idx auth n).log.length →
      ((_request_with_retries trace args kwargs idx auth n).log.getD i
        defaultEntry).retriesVal = n - i) ∧
    (∀ i, i + 1 < (_request_with_retries trace args kwargs idx auth n).log.length →
      1 < ((_request_with_retries trace args kwargs idx auth n).log.getD i
        defaultEntry).retriesVal) ∧
    (1 ≤ n → (_request_with_retries trace args kwargs idx auth n).log.length ≤ n) := by
  induction n using Nat.strong_induction_on generalizing idx auth with
  | _ n ih =>
    cases hstep : attemptStep trace args kwargs idx auth n with
    | terminal res entry auth2 =>
      rw [run_of_terminal hstep]
      have hval := attemptStep_terminal_retriesVal hstep
      refine ⟨by simp, ?_, ?_, ?_⟩
      · intro i hi
        have hi0 : i = 0 := by simpa using hi
        subst hi0
        simpa using hval
      · intro i hi
        simp at hi
      · intro hn
        simpa using hn
    | retry entry auth2 =>
      rw [run_of_retry hstep]
      have hlt := attemptStep_retry_lt hstep
      have hval := attemptStep_retry_retriesVal hstep
      have IH := ih (n - 1) (by omega) (idx + 1) auth2
      refine ⟨by simp, ?_, ?_, ?_⟩
      · intro i hi
        cases i with
        | zero => simpa using hval
        | succ j =>
          simp only [List.getD_cons_succ]
          have hj : j < (_request_with_retries trace args kwargs (idx + 1) auth2
              (n - 1)).log.length := by
            simpa using hi
          rw [IH.2.1 j hj]
          omega
      · intro i hi
        cases i with
        | zero =>
          simp only [List.getD_cons_zero]
          omega
        | succ j =>
          simp only [List.getD_cons_succ]
          have hj : j + 1 < (_request_with_retries trace args kwargs (idx + 1) auth2
              (n - 1)).log.length := by
            simpa using hi
          exact IH.2.2.1 j hj
      · intro hn
        have hrest := IH.2.2.2 (by omega)
        simp only [List.length_cons]
        omega

/-- Witness for C9: the [503, 503, 503] run with budget 3 makes at most
3 attempts, the first attempt's counter is 3, and no counter is ever
below 1 among the first two (non-final) attempts. -/
theorem C9_retry_counter_witness :
    (0 : Nat) < 3 ∧ (1 : Nat) ≤ 3 ∧
    ((_request_with_retries trace503all [] [] 0 authNoRefresh 3).log.getD 0
      defaultEntry).retriesVal = 3 - 0 ∧
    1 < ((_request_with_retries trace503all [] [] 0 authNoRefresh 3).log.getD 0
      defaultEntry).retriesVal ∧
    (_request_with_retries trace503all [] [] 0 authNoRefresh 3).log.length ≤ 3 := by
  have hlen : (_request_with_retries trace503all [] [] 0 authNoRefresh 3).log.length = 3 := by
    rw [show _request_with_retries trace503all [] [] 0 authNoRefresh 3
        = runCall authNoRefresh trace503all 3 from rfl]
    rw [runCall_503all_eval]
    rfl
  refine ⟨by norm_num, by norm_num, ?_, ?_, ?_⟩
  · exact (C9_retry_counter trace503all [] [] 0 authNoRefresh 3).2.1 0 (by rw [hlen]; norm_num)
  · exact (C9_retry_counter trace503all [] [] 0 authNoRefresh 3).2.2.1 0 (by rw [hlen]; norm_num)
  · exact (C9_retry_counter trace503all [] [] 0 authNoRefresh 3).2.2.2 (by norm_num)

/-- Claim C10: the terminal classification never reads the status of an
absent response: for every trace, authorizer and budget the run's result
is not the absent-response marker, because a transport exception is only
swallowed when more than one attempt remains, and an absent response
always satisfies the retry condition. -/
theorem C10_no_absent_status_read (trace : Nat → TransportOutcome) (args : List String)
    (kwargs : PDict) (idx : Nat) (auth : Authorizer) (retries : Nat) :
    isNoneStatusRead (_request_with_retries trace args kwargs idx auth retries).result
      = false := by
  induction retries using Nat.strong_induction_on generalizing idx auth with
  | _ n ih =>
    cases hstep : attemptStep trace args kwargs idx auth n with
    | terminal res entry auth2 =>
      rw [run_of_terminal hstep]
      exact attemptStep_terminal_result_ne hstep
    | retry entry auth2 =>
      rw [run_of_retry hstep]
      have hlt := attemptStep_retry_lt hstep
      exact ih (n - 1) (by omega) (idx + 1) auth2
